import Mathlib

/-!
Verification of the ELO pairwise-ranking engine of `pythia`
(`pythia/cleaning/elo.py`) against its specification.

The engine is shallowly embedded: the score board (a pandas DataFrame) is a
list of rows, each row an association list from column names to rational cell
values; the rankings DataFrame is an association list from player id to a
rating record whose numeric fields live in `ℝ` (Python floats are modelled as
real numbers).  Fallible Python operations (attribute/column lookups, name
resolution, `raise`) are modelled with `Except`.

Python's name-resolution rules matter for `score_update`: inside a method
body a bare name is looked up in the local scope, then the module globals,
then the builtins — the class namespace is *not* searched.  The helper
`_update_state_dict` is an attribute of class `ELO`, yet `score_update`
refers to it as a bare name, so the reference cannot resolve; moreover the
helper's own body uses `self` although `self` is not among its parameters.
Both facts are modelled explicitly below via lists of the names actually
bound in each scope, read off the source.
-/

namespace PythiaElo

/-- Python exceptions raised by the modelled fragment of `elo.py`:
`NameError` (unresolvable bare name, carrying the name), `KeyError`
(missing label in a lookup / `DataFrame.drop` of an absent column) and
`SunpyUserWarning` (the exception type `ELO.__init__` raises for a bad
column map; the spec calls this condition `ConfigurationError`). -/
inductive PyError where
  | nameError (missing : String)
  | keyError
  | sunpyUserWarning
deriving DecidableEq

/-- One row of the score-board DataFrame: an association list from column
name to (rational) cell value.  Image ids and outcomes in the CSV data are
numbers; rationals keep them decidable. -/
abbrev Row : Type := List (String × ℚ)

/-- The score-board DataFrame handed to `ELO.__init__`: its column names and
its rows. -/
structure ScoreBoard where
  columns : List String
  rows : List Row

/-- Reading a cell `row[c]` of a DataFrame row; `none` models the `KeyError`
of a missing label. -/
def getCell (row : Row) (c : String) : Option ℚ :=
  match row with
  | [] => none
  | p :: rest => if p.1 = c then some p.2 else getCell rest c

/-- The three values of the `column_map` dictionary (its keys are the fixed
strings `player 0`, `player 1`, `score for player 0`). -/
structure ColumnMap where
  player0 : String
  player1 : String
  scoreForPlayer0 : String

/-- `column_map.values()` in the order the dictionary literal lists them. -/
def ColumnMap.values (cm : ColumnMap) : List String :=
  [cm.player0, cm.player1, cm.scoreForPlayer0]

/-- One row of the `rankings` DataFrame (minus the `player id` column, which
doubles as the index and is kept as the association-list key).  The
`last scores` column stores a comma-joined string of floats; we model the
parsed list directly (`str`/`float` round-tripping is the identity in the
real-number model). -/
structure RatingRecord where
  score : ℝ
  kValue : ℝ
  count : ℕ
  stdDev : ℝ
  lastScores : List ℝ

/-- `rankings.loc[i]`: label-based row lookup in the rankings DataFrame. -/
def findRecord (rk : List (ℚ × RatingRecord)) (i : ℚ) : Option RatingRecord :=
  match rk with
  | [] => none
  | p :: rest => if p.1 = i then some p.2 else findRecord rest i

/-- The `ELO` object: the constructor arguments it stores, plus the
`rankings` DataFrame (association list keyed by `player id`) and the list of
that DataFrame's column names (needed to model `DataFrame.drop`).  The
unused `delimiter` parameter of `__init__` is not stored by the source and
is omitted. -/
structure ELO where
  scoreBoard : ScoreBoard
  kValue : ℝ
  defaultScore : ℝ
  maxComparisions : ℕ
  scoreMemory : ℕ
  minScoreChange : ℝ
  maxScoreChange : ℝ
  columnMap : ColumnMap
  rankings : List (ℚ × RatingRecord)
  rankingsColumns : List String

/-! ### Python name-resolution model

The names below are read off `elo.py`: the module-level bindings, a
representative set of builtins the module touches, and the local names
(parameters plus assigned variables) of `score_update` and of
`_update_state_dict`. -/

/-- Names bound at module level in `elo.py` (imports and top-level
definitions). -/
def moduleGlobalNames : List String :=
  ["deque", "np", "pd", "SunpyUserWarning", "__all__", "ELO"]

/-- Builtin names used by the module. -/
def builtinNames : List String :=
  ["min", "max", "set", "str", "float", "int", "map", "print", "len", "list", "dict"]

/-- Local names of the method `score_update`: its parameters and every name
its body assigns. -/
def scoreUpdateLocalNames : List String :=
  ["self", "image_0", "image_1", "score_for_image_0", "state_dict_0", "state_dict_1",
   "expected_score_0", "expected_score_1", "update_df"]

/-- Local names of `_update_state_dict`: its parameters and every name its
body assigns.  Note that `self` is not among them. -/
def updateStateDictLocalNames : List String :=
  ["state_dict", "image", "expected_score", "score", "new_rating", "new_std_dev", "new_k"]

/-- Python resolution of a bare name inside a method body: local scope, then
module globals, then builtins.  The class namespace is not searched. -/
def resolvesInMethod (locals : List String) (n : String) : Bool :=
  locals.contains n || moduleGlobalNames.contains n || builtinNames.contains n

/-! ### The pure rating formulas (`expected_score`, `new_rating`) -/

/-- `ELO.expected_score`: `1.0 / (1.0 + 10 ** ((score_image_1 - score_image_0) / 400.00))`. -/
noncomputable def expected_score (score_image_0 score_image_1 : ℝ) : ℝ :=
  1 / (1 + (10 : ℝ) ^ ((score_image_1 - score_image_0) / 400))

/-- `ELO.new_rating`: `rating_for_image + k_value * (score_for_image - image_expected_score)`. -/
def new_rating (rating_for_image k_value score_for_image image_expected_score : ℝ) : ℝ :=
  rating_for_image + k_value * (score_for_image - image_expected_score)

/-! ### Deque and numpy helpers -/

/-- Building a `deque(xs, maxlen := n)` keeps the last `n` elements. -/
def lastN (n : ℕ) (xs : List ℝ) : List ℝ := xs.drop (xs.length - n)

/-- Appending to a `deque` with `maxlen := n`: the oldest element is evicted
once the deque is full. -/
def dequePush (n : ℕ) (xs : List ℝ) (x : ℝ) : List ℝ := lastN n (xs ++ [x])

/-- `np.std`: the population standard deviation
`sqrt(mean((x - mean xs)^2))`. -/
noncomputable def npStd (xs : List ℝ) : ℝ :=
  Real.sqrt (((xs.map (fun x => (x - xs.sum / (xs.length : ℝ)) ^ 2)).sum) / (xs.length : ℝ))

/-! ### The state-dict update (`_update_state_dict`) and the commit -/

/-- The body of `_update_state_dict` (lines 159-170) with `self` bound to the
engine, as its use in `score_update` intends: recompute the rating from the
rankings row of `image`, push it on the bounded history, recompute the
standard deviation (capped at 1 000 000) and clamp it into
`[min_score_change, max_score_change]` for the new K value, increment the
count.  `rankings.loc[image]` on an unknown label is a `KeyError`. -/
noncomputable def ELO.updateStateDict (e : ELO) (sd : RatingRecord) (image : ℚ)
    (expScore actScore : ℝ) : Except PyError RatingRecord :=
  match findRecord e.rankings image with
  | some r =>
    let nr := new_rating r.score r.kValue actScore expScore
    let ls := dequePush e.scoreMemory sd.lastScores nr
    let nstd := min (npStd ls) 1000000
    let nk := min (max nstd e.minScoreChange) e.maxScoreChange
    .ok { score := nr, kValue := nk, count := sd.count + 1, stdDev := nstd, lastScores := ls }
  | none => .error .keyError

/-- `rankings.update(update_df)` where `update_df` holds the two state dicts
indexed by `player id`: rows whose label matches `i0` or `i1` are
overwritten, all other rows (and labels absent from the rankings) are left
alone. -/
def rankingsUpdate (rk : List (ℚ × RatingRecord)) (i0 : ℚ) (r0 : RatingRecord)
    (i1 : ℚ) (r1 : RatingRecord) : List (ℚ × RatingRecord) :=
  rk.map (fun p => if p.1 = i0 then (p.1, r0) else if p.1 = i1 then (p.1, r1) else p)

/-- Lines 140-157 of `score_update` under the assumption that the call to
the state-dict helper resolves (the intended `apply_match` step): build the
two state dicts, compute the expected scores, update both state dicts and
commit them back into the rankings. -/
noncomputable def ELO.scoreUpdateCore (e : ELO) (image_0 image_1 : ℚ)
    (score_for_image_0 : ℚ) : Except PyError ELO :=
  match findRecord e.rankings image_0, findRecord e.rankings image_1 with
  | some r0, some r1 =>
    let sd0 := { r0 with lastScores := lastN e.scoreMemory r0.lastScores }
    let sd1 := { r1 with lastScores := lastN e.scoreMemory r1.lastScores }
    let es0 := expected_score r0.score r1.score
    let es1 := 1 - es0
    (e.updateStateDict sd0 image_0 es0 ((score_for_image_0 : ℚ) : ℝ)).bind fun nsd0 =>
      (e.updateStateDict sd1 image_1 es1 ((1 - score_for_image_0 : ℚ) : ℝ)).bind fun nsd1 =>
        .ok { e with rankings := rankingsUpdate e.rankings image_0 nsd0 image_1 nsd1 }
  | _, _ => .error .keyError

/-- `ELO.score_update` as written: the reads of lines 140-146 (a `KeyError`
if either image id is not a rankings label), then the bare-name call
`_update_state_dict(...)` of line 149.  The name is resolved with Python's
scoping rules; were it resolvable, the callee's own body would next need the
bare name `self` (line 160).  Only if both resolved would the update of
lines 149-157 commit. -/
noncomputable def ELO.score_update (e : ELO) (image_0 image_1 : ℚ)
    (score_for_image_0 : ℚ) : Except PyError ELO :=
  match findRecord e.rankings image_0, findRecord e.rankings image_1 with
  | some _, some _ =>
    if resolvesInMethod scoreUpdateLocalNames "_update_state_dict" then
      if resolvesInMethod updateStateDictLocalNames "self" then
        e.scoreUpdateCore image_0 image_1 score_for_image_0
      else .error (.nameError "self")
    else .error (.nameError "_update_state_dict")
  | _, _ => .error .keyError

/-! ### The batch runner (`run`) and persistence (`save_as_csv`) -/

/-- One iteration of the loop in `run`: read the two player cells, skip the
row if they are equal, otherwise read the outcome cell and call
`score_update`. -/
noncomputable def ELO.processRow (e : ELO) (row : Row) : Except PyError ELO :=
  match getCell row e.columnMap.player0, getCell row e.columnMap.player1 with
  | some a, some b =>
    if a = b then .ok e
    else
      match getCell row e.columnMap.scoreForPlayer0 with
      | some s => e.score_update a b s
      | none => .error .keyError
  | _, _ => .error .keyError

/-- The loop of `run` over all score-board rows, in order. -/
noncomputable def ELO.processBoard (e : ELO) : Except PyError ELO :=
  e.scoreBoard.rows.foldlM ELO.processRow e

/-- `ELO.save_as_csv`: `rankings.drop(columns := ["last_scores"])` raises a
`KeyError` when no column is named `last_scores`; otherwise the column is
removed and the frame written out (the disk write itself is outside the
model). -/
def ELO.save_as_csv (e : ELO) : Except PyError ELO :=
  if e.rankingsColumns.contains "last_scores" then
    .ok { e with rankingsColumns := e.rankingsColumns.erase "last_scores" }
  else .error .keyError

/-- `ELO.run`: replay the score board, then persist when `save_to_disk`. -/
noncomputable def ELO.run (e : ELO) (save_to_disk : Bool) : Except PyError ELO :=
  e.processBoard.bind fun e2 => if save_to_disk then e2.save_as_csv else .ok e2

/-! ### Construction (`__init__` and `_create_ranking`) -/

/-- The distinct entity ids of `_create_ranking`:
`set(board[player 0]) ∪ set(board[player 1])` (only membership in this set
matters; Python's set iteration order is unspecified). -/
def entityIds (board : ScoreBoard) (cm : ColumnMap) : List ℚ :=
  ((board.rows.filterMap (fun r => getCell r cm.player0)) ++
    (board.rows.filterMap (fun r => getCell r cm.player1))).dedup

/-- A freshly created rankings row: default score, initial K value, zero
count, `std dev` seeded with `max_score_change` and a one-element score
history (`str(default_score)`). -/
def initialRecord (default_score k_value max_score_change : ℝ) : RatingRecord :=
  { score := default_score, kValue := k_value, count := 0, stdDev := max_score_change,
    lastScores := [default_score] }

/-- `_create_ranking`: one row per distinct entity id, with the column
layout `player id, score, k value, count, std dev, last scores`. -/
def createRanking (board : ScoreBoard) (k_value default_score : ℝ) (max_comparisons : ℕ)
    (max_score_change min_score_change : ℝ) (score_memory : ℕ) (cm : ColumnMap) : ELO :=
  { scoreBoard := board, kValue := k_value, defaultScore := default_score,
    maxComparisions := max_comparisons, scoreMemory := score_memory,
    minScoreChange := min_score_change, maxScoreChange := max_score_change,
    columnMap := cm,
    rankings := (entityIds board cm).map
      (fun i => (i, initialRecord default_score k_value max_score_change)),
    rankingsColumns := ["player id", "score", "k value", "count", "std dev", "last scores"] }

/-- The column-map values that are missing from the score board (the
`missing_columns` of `__init__`). -/
def missingColumns (cm : ColumnMap) (cols : List String) : List String :=
  cm.values.filter (fun c => decide (c ∉ cols))

/-- `ELO.__init__`: store the configuration, raise `SunpyUserWarning` when
some column named in the column map is absent from the score board, and
otherwise build the rankings via `_create_ranking`. -/
def ELO.init (board : ScoreBoard) (k_value default_score : ℝ) (max_comparisons : ℕ)
    (max_score_change min_score_change : ℝ) (score_memory : ℕ) (cm : ColumnMap) :
    Except PyError ELO :=
  if missingColumns cm board.columns = [] then
    .ok (createRanking board k_value default_score max_comparisons max_score_change
      min_score_change score_memory cm)
  else .error .sunpyUserWarning

/-- Replaying an explicit list of matches `(image_0, image_1, score_for_image_0)`
through the intended update step `scoreUpdateCore`, in order. -/
noncomputable def ELO.applyMatches (e : ELO) (ms : List (ℚ × ℚ × ℚ)) : Except PyError ELO :=
  ms.foldlM (fun x m => x.scoreUpdateCore m.1 m.2.1 m.2.2) e

/-! ### Auxiliary predicates used in the claim statements -/

/-- A score-board row all of whose relevant cells exist and whose player ids
are rankings labels. -/
def rowReady (e : ELO) (row : Row) : Bool :=
  match getCell row e.columnMap.player0, getCell row e.columnMap.player1,
      getCell row e.columnMap.scoreForPlayer0 with
  | some a, some b, some _ => (findRecord e.rankings a).isSome && (findRecord e.rankings b).isSome
  | _, _, _ => false

/-- A score-board row whose two player ids differ (a non-self match). -/
def rowNonSelf (e : ELO) (row : Row) : Bool :=
  match getCell row e.columnMap.player0, getCell row e.columnMap.player1 with
  | some a, some b => decide (a ≠ b)
  | _, _ => false

/-- Every rating record of a successfully produced engine has its K value
inside `[kmin, kmax]`; an exception trivially satisfies the bound (there is
no state to inspect). -/
def KBounded (kmin kmax : ℝ) : Except PyError ELO → Prop
  | .ok e => ∀ p ∈ e.rankings, kmin ≤ p.2.kValue ∧ p.2.kValue ≤ kmax
  | .error _ => True

/-- On a successfully constructed engine, `save_as_csv` raises `KeyError`
and `run(save_to_disk := True)` can never return normally. -/
def SaveNeverCommits : Except PyError ELO → Prop
  | .ok e => e.save_as_csv = .error .keyError ∧ ∀ x, e.run true ≠ .ok x
  | .error _ => True

/-! ### Concrete sample data -/

/-- The default column map of `__init__`. -/
def sampleColumnMap : ColumnMap :=
  { player0 := "image_id_0", player1 := "image_id_1",
    scoreForPlayer0 := "image0_more_complex_image1" }

/-- A one-row score board holding the single non-self match `10 vs 20`,
won by image `10`. -/
def sampleBoard : ScoreBoard :=
  { columns := ["image_id_0", "image_id_1", "image0_more_complex_image1"],
    rows := [[("image_id_0", 10), ("image_id_1", 20), ("image0_more_complex_image1", 1)]] }

/-- A score board with the right columns but no rows (no entity ids). -/
def emptyBoard : ScoreBoard :=
  { columns := ["image_id_0", "image_id_1", "image0_more_complex_image1"], rows := [] }

/-- The engine built from `sampleBoard` with the default configuration. -/
noncomputable def sampleEngine : ELO :=
  createRanking sampleBoard 32 1400 50 32 16 10 sampleColumnMap

/-! ### Claims about the pure formulas -/

/-- Claim C2: `new_rating(r, k, s, e)` returns exactly `r + k * (s - e)`;
in particular `new_rating(1400, 32, 1, 0.5) = 1416.0` and
`new_rating(1400, 32, 0, 0.5) = 1384.0`. -/
theorem claim2_new_rating_formula :
    (∀ r k s es : ℝ, new_rating r k s es = r + k * (s - es)) ∧
    new_rating 1400 32 1 (1 / 2) = 1416 ∧ new_rating 1400 32 0 (1 / 2) = 1384 :=
  ⟨fun _ _ _ _ => rfl, by norm_num [new_rating], by norm_num [new_rating]⟩

/-- Claim C3: `expected_score(a, b)` returns exactly
`1 / (1 + 10 ^ ((b - a) / 400))`, and `expected_score(r, r) = 0.5` for
every rating `r`. -/
theorem claim3_expected_score_formula_and_fixed_point :
    (∀ a b : ℝ, expected_score a b = 1 / (1 + (10 : ℝ) ^ ((b - a) / 400))) ∧
    (∀ r : ℝ, expected_score r r = 1 / 2) := by
  refine ⟨fun _ _ => rfl, fun r => ?_⟩
  rw [expected_score, sub_self, zero_div, Real.rpow_zero]
  norm_num

/-- Claim C4: for all ratings `r1, r2`,
`expected_score(r1, r2) + expected_score(r2, r1) = 1`. -/
theorem claim4_expected_score_symmetry (a b : ℝ) :
    expected_score a b + expected_score b a = 1 := by
  have h10 : (0 : ℝ) < 10 := by norm_num
  have hpos : 0 < (10 : ℝ) ^ ((b - a) / 400) := Real.rpow_pos_of_pos h10 _
  have hneg : (10 : ℝ) ^ ((a - b) / 400) = ((10 : ℝ) ^ ((b - a) / 400))⁻¹ := by
    rw [show ((a - b) / 400 : ℝ) = -((b - a) / 400) by ring, Real.rpow_neg (le_of_lt h10)]
  rw [expected_score, expected_score, hneg]
  have h1 : (1 : ℝ) + (10 : ℝ) ^ ((b - a) / 400) ≠ 0 := by positivity
  have h2 : (1 : ℝ) + ((10 : ℝ) ^ ((b - a) / 400))⁻¹ ≠ 0 := by positivity
  field_simp
  ring

/-- Claim C5: with rating, K value and expected score held fixed and
`k ≥ 0`, switching the actual outcome from 0 to 1 never decreases the
new rating (so the winner's rating moves up relative to the loser's form
of the same update). -/
theorem claim5_outcome_monotonicity (r k es : ℝ) (hk : 0 ≤ k) :
    new_rating r k 0 es ≤ new_rating r k 1 es := by
  have h : new_rating r k 1 es - new_rating r k 0 es = k := by
    rw [new_rating, new_rating]; ring
  linarith

/-- Witness for Claim C5 at `r = 1400`, `k = 32`, `e = 0.5`. -/
theorem claim5_witness :
    new_rating 1400 32 0 (1 / 2) ≤ new_rating 1400 32 1 (1 / 2) :=
  claim5_outcome_monotonicity 1400 32 (1 / 2) (by norm_num)

/-! ### The broken bare-name call in `score_update` -/

/-- The bare name `_update_state_dict` does not resolve in the scope of
`score_update` (it is a class attribute, which bare-name lookup skips). -/
theorem resolve_update_state_dict :
    resolvesInMethod scoreUpdateLocalNames "_update_state_dict" = false := by decide

/-- The bare name `self` does not resolve in the scope of
`_update_state_dict` (the method omits `self` from its parameter list). -/
theorem resolve_self :
    resolvesInMethod updateStateDictLocalNames "self" = false := by decide

/-- Whenever both image ids are rankings labels, `score_update` reaches the
bare-name call of line 149 and raises `NameError`. -/
theorem score_update_raises (e : ELO) (i0 i1 s : ℚ) (r0 r1 : RatingRecord)
    (h0 : findRecord e.rankings i0 = some r0) (h1 : findRecord e.rankings i1 = some r1) :
    e.score_update i0 i1 s = .error (.nameError "_update_state_dict") := by
  simp [ELO.score_update, h0, h1, resolve_update_state_dict]

/-- `score_update` never returns normally: every call raises (`KeyError` on
an unknown label, `NameError` otherwise). -/
theorem score_update_ne_ok (e : ELO) (i0 i1 s : ℚ) (x : ELO) :
    e.score_update i0 i1 s ≠ .ok x := by
  cases h0 : findRecord e.rankings i0 <;> cases h1 : findRecord e.rankings i1 <;>
    simp [ELO.score_update, h0, h1, resolve_update_state_dict]

/-- A loop iteration of `run` that returns normally left the engine
untouched (it can only have been a skipped self-match). -/
theorem processRow_ok (e x : ELO) (row : Row) (h : e.processRow row = .ok x) : x = e := by
  unfold ELO.processRow at h
  split at h
  · split at h
    · injection h with h
      exact h.symm
    · split at h
      · exact absurd h (score_update_ne_ok _ _ _ _ _)
      · simp at h
  · simp at h

/-- Unpacking `rowReady`. -/
theorem rowReady_spec (e : ELO) (row : Row) (h : rowReady e row = true) :
    ∃ a b s, getCell row e.columnMap.player0 = some a ∧
      getCell row e.columnMap.player1 = some b ∧
      getCell row e.columnMap.scoreForPlayer0 = some s ∧
      (findRecord e.rankings a).isSome = true ∧ (findRecord e.rankings b).isSome = true := by
  unfold rowReady at h
  split at h
  · rename_i a b s hc0 hc1 hcs
    exact ⟨a, b, s, hc0, hc1, hcs, (Bool.and_eq_true _ _).mp h |>.1,
      (Bool.and_eq_true _ _).mp h |>.2⟩
  · cases h

/-- The loop of `run` returns normally only when it changed nothing. -/
theorem processRows_ok (rows : List Row) : ∀ e x : ELO,
    rows.foldlM ELO.processRow e = .ok x → x = e := by
  induction rows with
  | nil =>
    intro e x h
    simp only [List.foldlM_nil, pure, Except.pure] at h
    injection h with h
    exact h.symm
  | cons r rs ih =>
    intro e x h
    rw [List.foldlM_cons] at h
    cases hr : e.processRow r with
    | error err => rw [hr] at h; simp [Bind.bind, Except.bind] at h
    | ok e1 =>
      rw [hr] at h
      simp only [Bind.bind, Except.bind] at h
      rw [ih e1 x h, processRow_ok e e1 r hr]

/-- When every row is well formed and some row is a non-self match, the
loop of `run` raises `NameError` at the first non-self match. -/
theorem processRows_raises (rows : List Row) : ∀ e : ELO,
    (∀ row ∈ rows, rowReady e row = true) →
    (∃ row ∈ rows, rowNonSelf e row = true) →
    rows.foldlM ELO.processRow e = .error (.nameError "_update_state_dict") := by
  induction rows with
  | nil => intro e _ hex; simp at hex
  | cons r rs ih =>
    intro e hready hex
    obtain ⟨a, b, s, hc0, hc1, hcs, hfa, hfb⟩ := rowReady_spec e r (hready r (by simp))
    obtain ⟨ra, hra⟩ := Option.isSome_iff_exists.mp hfa
    obtain ⟨rb, hrb⟩ := Option.isSome_iff_exists.mp hfb
    rw [List.foldlM_cons]
    by_cases hab : a = b
    · have hpr : e.processRow r = .ok e := by
        simp [ELO.processRow, hc0, hc1, hab]
      have hex2 : ∃ row ∈ rs, rowNonSelf e row = true := by
        rcases hex with ⟨w, hw, hwn⟩
        rcases List.mem_cons.mp hw with hcase | hcase
        · subst hcase
          unfold rowNonSelf at hwn
          rw [hc0, hc1] at hwn
          exact absurd hab (of_decide_eq_true hwn)
        · exact ⟨w, hcase, hwn⟩
      rw [hpr]
      simp only [Bind.bind, Except.bind]
      exact ih e (fun row hrow => hready row (List.mem_cons_of_mem _ hrow)) hex2
    · have hpr : e.processRow r = .error (.nameError "_update_state_dict") := by
        simp [ELO.processRow, hc0, hc1, hab, hcs,
          score_update_raises e a b s ra rb hra hrb]
      rw [hpr]
      simp [Bind.bind, Except.bind]

/-- Claim C1: for every pair of entity ids present in the rankings store,
`score_update` raises an unhandled `NameError` before any write to the
rankings store — `_update_state_dict` is referenced as a bare (unbound)
name whose lookup fails (and its body would in turn need an unbound
`self`) — so no update ever commits, and `run` raises at the first
non-self match of a well-formed score board.  The error value carries no
engine state: the rankings are exactly as they were before the call. -/
theorem claim1_score_update_always_raises :
    (resolvesInMethod scoreUpdateLocalNames "_update_state_dict" = false ∧
      resolvesInMethod updateStateDictLocalNames "self" = false) ∧
    (∀ (e : ELO) (i0 i1 s : ℚ),
      (findRecord e.rankings i0).isSome = true → (findRecord e.rankings i1).isSome = true →
      e.score_update i0 i1 s = .error (.nameError "_update_state_dict")) ∧
    (∀ e : ELO, (∀ row ∈ e.scoreBoard.rows, rowReady e row = true) →
      (∃ row ∈ e.scoreBoard.rows, rowNonSelf e row = true) →
      e.processBoard = .error (.nameError "_update_state_dict")) := by
  refine ⟨⟨resolve_update_state_dict, resolve_self⟩, ?_, ?_⟩
  · intro e i0 i1 s h0 h1
    obtain ⟨r0, hr0⟩ := Option.isSome_iff_exists.mp h0
    obtain ⟨r1, hr1⟩ := Option.isSome_iff_exists.mp h1
    exact score_update_raises e i0 i1 s r0 r1 hr0 hr1
  · intro e h1 h2
    exact processRows_raises e.scoreBoard.rows e h1 h2

/-- Witness for Claim C1 on the concrete sample engine: the `10 vs 20`
match raises `NameError`, and so does replaying the one-row board. -/
theorem claim1_witness :
    sampleEngine.score_update 10 20 1 = .error (.nameError "_update_state_dict") ∧
    sampleEngine.processBoard = .error (.nameError "_update_state_dict") :=
  ⟨claim1_score_update_always_raises.2.1 sampleEngine 10 20 1 (by decide) (by decide),
    claim1_score_update_always_raises.2.2 sampleEngine (by decide) (by decide)⟩

/-- Claim C7: the count invariant `sum(count) = 2 * M` cannot hold on the
code as written.  Replaying the sample board, whose single match is a
non-self match (`M = 1`), raises `NameError` inside the first
`score_update`; the only state the engine ever reaches is the
post-initialization one, whose total count is `0 ≠ 2 * 1`. -/
theorem claim7_count_invariant_fails :
    (ELO.init sampleBoard 32 1400 50 32 16 10 sampleColumnMap).bind ELO.processBoard
        = .error (.nameError "_update_state_dict") ∧
    (sampleEngine.rankings.map (fun p => p.2.count)).sum = 0 ∧
    sampleBoard.rows.countP (fun row => rowNonSelf sampleEngine row) = 1 ∧
    (0 : ℕ) ≠ 2 * 1 := by
  refine ⟨?_, by decide, by decide, by decide⟩
  have hinit : ELO.init sampleBoard 32 1400 50 32 16 10 sampleColumnMap
      = .ok sampleEngine := by
    unfold ELO.init
    rw [if_pos (by decide)]
    rfl
  rw [hinit]
  show sampleEngine.processBoard = _
  exact processRows_raises sampleEngine.scoreBoard.rows sampleEngine (by decide) (by decide)

/-- On a freshly created rankings DataFrame, whose columns are
`player id, score, k value, count, std dev, last scores`, dropping the
misspelled column `last_scores` raises `KeyError`. -/
theorem save_of_created (e : ELO)
    (h : e.rankingsColumns
      = ["player id", "score", "k value", "count", "std dev", "last scores"]) :
    e.save_as_csv = .error .keyError := by
  unfold ELO.save_as_csv
  rw [h]
  rfl

/-- Claim C10: `save_as_csv` drops a column named `last_scores` while the
column created at initialization is named `last scores`, so it raises
`KeyError` on every constructed engine, and `run(save_to_disk = True)` can
never return normally. -/
theorem claim10_save_never_commits (board : ScoreBoard) (k_value default_score : ℝ)
    (max_comparisons : ℕ) (max_score_change min_score_change : ℝ) (score_memory : ℕ)
    (cm : ColumnMap) :
    SaveNeverCommits (ELO.init board k_value default_score max_comparisons
      max_score_change min_score_change score_memory cm) := by
  unfold ELO.init
  split
  · show (createRanking board k_value default_score max_comparisons max_score_change
        min_score_change score_memory cm).save_as_csv = .error .keyError ∧ _
    have hsave : (createRanking board k_value default_score max_comparisons
        max_score_change min_score_change score_memory cm).save_as_csv
        = .error .keyError := save_of_created _ rfl
    refine ⟨hsave, fun x hx => ?_⟩
    unfold ELO.run at hx
    cases hp : (createRanking board k_value default_score max_comparisons max_score_change
        min_score_change score_memory cm).processBoard with
    | error err => rw [hp] at hx; simp [Bind.bind, Except.bind] at hx
    | ok e2 =>
      rw [hp] at hx
      simp only [Bind.bind, Except.bind, if_true] at hx
      rw [processRows_ok _ _ _ hp, hsave] at hx
      simp at hx
  · trivial

/-! ### K-value bounds -/

/-- Splitting a successful `Except.bind`. -/
theorem except_bind_ok {α β γ : Type} (m : Except α β) (f : β → Except α γ) (c : γ)
    (h : m.bind f = .ok c) : ∃ b, m = .ok b ∧ f b = .ok c := by
  cases m with
  | error a => simp [Except.bind] at h
  | ok b => exact ⟨b, rfl, h⟩

/-- The state-dict update writes a K value clamped into
`[min_score_change, max_score_change]` (whenever that interval is
non-empty). -/
theorem updateStateDict_k_bounds (e : ELO) (sd : RatingRecord) (i : ℚ) (es sc : ℝ)
    (r2 : RatingRecord) (kmin kmax : ℝ)
    (hmin : e.minScoreChange = kmin) (hmax : e.maxScoreChange = kmax) (hkk : kmin ≤ kmax)
    (h : e.updateStateDict sd i es sc = .ok r2) :
    kmin ≤ r2.kValue ∧ r2.kValue ≤ kmax := by
  cases hf : findRecord e.rankings i with
  | none => simp [ELO.updateStateDict, hf] at h
  | some r =>
    simp only [ELO.updateStateDict, hf] at h
    injection h with h
    rw [← h, ← hmin, ← hmax]
    refine ⟨le_min (le_max_right _ _) ?_, min_le_right _ _⟩
    rw [hmin, hmax]; exact hkk

/-- A record of the updated rankings is one of the two freshly written
state dicts or an untouched original record. -/
theorem rankingsUpdate_mem (rk : List (ℚ × RatingRecord)) (i0 i1 : ℚ)
    (r0 r1 : RatingRecord) (p : ℚ × RatingRecord)
    (hp : p ∈ rankingsUpdate rk i0 r0 i1 r1) :
    p.2 = r0 ∨ p.2 = r1 ∨ p ∈ rk := by
  unfold rankingsUpdate at hp
  obtain ⟨q, hq, hpq⟩ := List.mem_map.mp hp
  by_cases h0 : q.1 = i0
  · left; rw [← hpq, if_pos h0]
  · by_cases h1 : q.1 = i1
    · right; left; rw [← hpq, if_neg h0, if_pos h1]
    · right; right; rw [← hpq, if_neg h0, if_neg h1]; exact hq

/-- A successful intended update step preserves the configured K bounds on
every record and leaves the configuration itself unchanged. -/
theorem scoreUpdateCore_bounds (e x : ELO) (i0 i1 s : ℚ) (kmin kmax : ℝ)
    (hmin : e.minScoreChange = kmin) (hmax : e.maxScoreChange = kmax) (hkk : kmin ≤ kmax)
    (hinv : ∀ p ∈ e.rankings, kmin ≤ p.2.kValue ∧ p.2.kValue ≤ kmax)
    (h : e.scoreUpdateCore i0 i1 s = .ok x) :
    x.minScoreChange = kmin ∧ x.maxScoreChange = kmax ∧
      ∀ p ∈ x.rankings, kmin ≤ p.2.kValue ∧ p.2.kValue ≤ kmax := by
  unfold ELO.scoreUpdateCore at h
  split at h
  · obtain ⟨nsd0, hu0, h⟩ := except_bind_ok _ _ _ h
    obtain ⟨nsd1, hu1, h⟩ := except_bind_ok _ _ _ h
    injection h with h
    rw [← h]
    refine ⟨hmin, hmax, fun p hp => ?_⟩
    rcases rankingsUpdate_mem _ _ _ _ _ _ hp with hc | hc | hc
    · rw [hc]; exact updateStateDict_k_bounds _ _ _ _ _ _ _ _ hmin hmax hkk hu0
    · rw [hc]; exact updateStateDict_k_bounds _ _ _ _ _ _ _ _ hmin hmax hkk hu1
    · exact hinv p hc
  · cases h

/-- Replaying any match list through the intended update keeps every
record's K value inside the configured bounds. -/
theorem applyMatches_bounds (ms : List (ℚ × ℚ × ℚ)) : ∀ (e : ELO) (kmin kmax : ℝ),
    e.minScoreChange = kmin → e.maxScoreChange = kmax → kmin ≤ kmax →
    (∀ p ∈ e.rankings, kmin ≤ p.2.kValue ∧ p.2.kValue ≤ kmax) →
    KBounded kmin kmax (e.applyMatches ms) := by
  induction ms with
  | nil =>
    intro e kmin kmax _ _ _ hinv
    unfold ELO.applyMatches
    simp only [List.foldlM_nil]
    exact hinv
  | cons m ms ih =>
    intro e kmin kmax h1 h2 hkk hinv
    unfold ELO.applyMatches
    rw [List.foldlM_cons]
    cases hc : e.scoreUpdateCore m.1 m.2.1 m.2.2 with
    | error err =>
      show KBounded kmin kmax (.error err)
      trivial
    | ok e1 =>
      obtain ⟨f1, f2, hinv1⟩ := scoreUpdateCore_bounds e e1 m.1 m.2.1 m.2.2
        kmin kmax h1 h2 hkk hinv hc
      exact ih e1 kmin kmax f1 f2 hkk hinv1

/-- Claim C6 counterexample: construct the engine with `k_value = 100`,
`min_score_change = 16` and `max_score_change = 32`.  Immediately after
initialization every record's `k value` column holds `100`, which is not
within the configured bounds: the initial K value is stored without
clamping. -/
theorem claim6_counterexample :
    (ELO.init sampleBoard 100 1400 50 32 16 10 sampleColumnMap).toOption.map
        (fun e => e.rankings.map (fun p => p.2.kValue)) = some [100, 100] ∧
    ¬ ((100 : ℝ) ≤ 32) := by
  constructor
  · rfl
  · norm_num

/-- Claim C6 as amended: provided the configured initial `k_value` lies
within `[min_score_change, max_score_change]`, every entity's K value
satisfies the bounds immediately after initialization and after any
sequence of match updates performed by the (intended) state-dict update
step. -/
theorem claim6_k_bounds_amended (board : ScoreBoard) (k_value default_score : ℝ)
    (max_comparisons : ℕ) (max_score_change min_score_change : ℝ) (score_memory : ℕ)
    (cm : ColumnMap) (ms : List (ℚ × ℚ × ℚ))
    (hlo : min_score_change ≤ k_value) (hhi : k_value ≤ max_score_change) :
    KBounded min_score_change max_score_change
      ((ELO.init board k_value default_score max_comparisons max_score_change
        min_score_change score_memory cm).bind (fun e => e.applyMatches ms)) := by
  unfold ELO.init
  split
  · show KBounded min_score_change max_score_change
      ((createRanking board k_value default_score max_comparisons max_score_change
        min_score_change score_memory cm).applyMatches ms)
    apply applyMatches_bounds ms _ _ _ rfl rfl (le_trans hlo hhi)
    intro p hp
    obtain ⟨i, _, hpi⟩ := List.mem_map.mp hp
    rw [← hpi]
    exact ⟨hlo, hhi⟩
  · trivial

/-- Witness for the amended Claim C6: the default configuration
(`k = 32 ∈ [16, 32]`) on the sample board, replaying its one match through
the intended update step. -/
theorem claim6_witness :
    KBounded 16 32 ((ELO.init sampleBoard 32 1400 50 32 16 10 sampleColumnMap).bind
      (fun e => e.applyMatches [(10, 20, 1)])) :=
  claim6_k_bounds_amended sampleBoard 32 1400 50 32 16 10 sampleColumnMap
    [(10, 20, 1)] (by norm_num) (by norm_num)

/-! ### Construction-time error handling -/

/-- Claim C8 counterexample: a score board with the mapped columns but no
rows has an empty entity-id set, yet initialization raises nothing — it
succeeds and builds a rankings store with zero records. -/
theorem claim8_counterexample :
    entityIds emptyBoard sampleColumnMap = [] ∧
    (ELO.init emptyBoard 32 1400 50 32 16 10 sampleColumnMap).toOption.map
      (fun e => e.rankings.length) = some 0 :=
  ⟨rfl, rfl⟩

/-- Claim C8 as amended: when the column check passes and the set of
distinct entity ids derived from the match source is empty, initialization
does not fail — it returns an engine whose rankings store has no records
(the source has no emptiness check). -/
theorem claim8_empty_ids_amended (board : ScoreBoard) (k_value default_score : ℝ)
    (max_comparisons : ℕ) (max_score_change min_score_change : ℝ) (score_memory : ℕ)
    (cm : ColumnMap)
    (hcols : missingColumns cm board.columns = [])
    (hids : entityIds board cm = []) :
    ∃ e, ELO.init board k_value default_score max_comparisons max_score_change
        min_score_change score_memory cm = .ok e ∧ e.rankings = [] := by
  refine ⟨createRanking board k_value default_score max_comparisons max_score_change
    min_score_change score_memory cm, ?_, ?_⟩
  · unfold ELO.init
    rw [if_pos hcols]
  · show (entityIds board cm).map _ = []
    rw [hids]
    rfl

/-- Witness for the amended Claim C8 on the empty sample board. -/
theorem claim8_witness :
    ∃ e, ELO.init emptyBoard 32 1400 50 32 16 10 sampleColumnMap = .ok e ∧
      e.rankings = [] :=
  claim8_empty_ids_amended emptyBoard 32 1400 50 32 16 10 sampleColumnMap rfl rfl

/-- The `missing columns` test of `__init__` is exactly the subset test of
the column-map values against the score-board columns. -/
theorem missingColumns_eq_nil_iff (cm : ColumnMap) (cols : List String) :
    missingColumns cm cols = [] ↔ ∀ c ∈ cm.values, c ∈ cols := by
  unfold missingColumns
  rw [List.filter_eq_nil_iff]
  constructor
  · intro h c hcv
    have := h c hcv
    simpa using this
  · intro h c hcv
    simp [h c hcv]

/-- Claim C9: construction raises the configuration error exactly when some
column named in the column map is missing from the score board, and
construction fails closed — on the error path no engine (and so no rankings
store) is produced, while on the success path the engine is exactly the one
`_create_ranking` builds. -/
theorem claim9_column_check_iff (board : ScoreBoard) (k_value default_score : ℝ)
    (max_comparisons : ℕ) (max_score_change min_score_change : ℝ) (score_memory : ℕ)
    (cm : ColumnMap) :
    (ELO.init board k_value default_score max_comparisons max_score_change
        min_score_change score_memory cm = .error .sunpyUserWarning ↔
      ∃ c ∈ cm.values, c ∉ board.columns) ∧
    (ELO.init board k_value default_score max_comparisons max_score_change
        min_score_change score_memory cm
        = .ok (createRanking board k_value default_score max_comparisons max_score_change
          min_score_change score_memory cm) ↔
      ∀ c ∈ cm.values, c ∈ board.columns) := by
  have hmiss := missingColumns_eq_nil_iff cm board.columns
  have hmiss2 : missingColumns cm board.columns ≠ [] ↔
      ∃ c ∈ cm.values, c ∉ board.columns := by
    rw [Ne, hmiss]
    push_neg
    rfl
  by_cases hc : missingColumns cm board.columns = []
  · constructor
    · constructor
      · intro h
        unfold ELO.init at h
        rw [if_pos hc] at h
        cases h
      · intro h
        obtain ⟨c, hcv, hcn⟩ := h
        exact absurd (hmiss.mp hc c hcv) hcn
    · constructor
      · intro _
        exact hmiss.mp hc
      · intro _
        unfold ELO.init
        rw [if_pos hc]
  · constructor
    · constructor
      · intro _
        exact hmiss2.mp hc
      · intro _
        unfold ELO.init
        rw [if_neg hc]
    · constructor
      · intro h
        unfold ELO.init at h
        rw [if_neg hc] at h
        cases h
      · intro hall
        exact absurd (hmiss.mpr hall) hc

end PythiaElo
